import Mathlib

/-!
Verification of the quant-qmt-proxy trading gateway.

This file embeds, in Lean 4, the parts of the Python sources under `app/`
that the checked properties talk about: the trading service
(`app/services/trading_service.py`), the trading-callback dispatcher
(`app/services/trading_callback_manager.py`), the API-key dependency
(`app/dependencies.py`) and the blocking-call helper
(`app/utils/async_utils.py`).  Python `int` becomes `ℤ` (or `ℕ` for counters
that never go below zero), `float` fields carrying exact monetary values
become `ℚ`, dictionaries become association lists with Python `dict`
insert/delete semantics, and functions that can raise return `Except`.
-/

namespace QmtProxy

/-- The `OrderStatus` enumeration from `app/models/trading_models.py`. -/
inductive OrderStatus where
  | PENDING
  | SUBMITTED
  | PARTIAL_FILLED
  | FILLED
  | CANCELLED
  | REJECTED
deriving DecidableEq, Repr

/-- The string value of each `OrderStatus` member (it is a `str` enum). -/
def OrderStatus.value : OrderStatus → String
  | .PENDING => "PENDING"
  | .SUBMITTED => "SUBMITTED"
  | .PARTIAL_FILLED => "PARTIAL_FILLED"
  | .FILLED => "FILLED"
  | .CANCELLED => "CANCELLED"
  | .REJECTED => "REJECTED"

/-- From `TradingService._convert_order_status` (trading_service.py, lines
853-867): the vendor status code is looked up in `status_map`, and
`dict.get` falls back to `OrderStatus.PENDING.value` for any other key. -/
def convert_order_status (status : ℤ) : String :=
  if status = 48 then OrderStatus.PENDING.value
  else if status = 49 then OrderStatus.SUBMITTED.value
  else if status = 50 then OrderStatus.SUBMITTED.value
  else if status = 51 then OrderStatus.SUBMITTED.value
  else if status = 52 then OrderStatus.PARTIAL_FILLED.value
  else if status = 53 then OrderStatus.PARTIAL_FILLED.value
  else if status = 54 then OrderStatus.CANCELLED.value
  else if status = 55 then OrderStatus.PARTIAL_FILLED.value
  else if status = 56 then OrderStatus.FILLED.value
  else if status = 57 then OrderStatus.REJECTED.value
  else OrderStatus.PENDING.value

/-- Claim C4: the vendor order-status conversion maps 48 to PENDING; 49, 50
and 51 to SUBMITTED; 52, 53 and 55 to PARTIAL_FILLED; 54 to CANCELLED; 56 to
FILLED; 57 to REJECTED; and every other integer status code (every code
outside 48..57) to PENDING. -/
theorem convert_order_status_table :
    convert_order_status 48 = "PENDING"
    ∧ convert_order_status 49 = "SUBMITTED"
    ∧ convert_order_status 50 = "SUBMITTED"
    ∧ convert_order_status 51 = "SUBMITTED"
    ∧ convert_order_status 52 = "PARTIAL_FILLED"
    ∧ convert_order_status 53 = "PARTIAL_FILLED"
    ∧ convert_order_status 55 = "PARTIAL_FILLED"
    ∧ convert_order_status 54 = "CANCELLED"
    ∧ convert_order_status 56 = "FILLED"
    ∧ convert_order_status 57 = "REJECTED"
    ∧ ∀ s : ℤ, s < 48 ∨ 57 < s → convert_order_status s = "PENDING" := by
  refine ⟨by decide, by decide, by decide, by decide, by decide, by decide,
    by decide, by decide, by decide, by decide, ?_⟩
  intro s hs
  unfold convert_order_status
  rcases hs with h | h <;>
    · (repeat rw [if_neg (by omega)]); rfl

/-- Claim C4, witness: the default branch of the status conversion at the
concrete out-of-table code 100. -/
theorem convert_order_status_table_witness :
    convert_order_status 100 = "PENDING" :=
  convert_order_status_table.2.2.2.2.2.2.2.2.2.2 100 (Or.inr (by norm_num))

/-! ### API-key authentication (`app/dependencies.py`) -/

/-- Python truthiness of the optional bearer key as tested by
`if not api_key:` in `verify_api_key`: `None` and the empty string are
falsy. `get_api_key` returns `None` when no `Authorization` header is
present and the raw token otherwise. -/
def keyFalsy : Option String → Bool
  | none => true
  | some k => k == ""

/-- Boolean success test for an `Except` value. -/
def exceptOk {ε α : Type} : Except ε α → Bool
  | .ok _ => true
  | .error _ => false

/-- From `verify_api_key` (dependencies.py, lines 90-102): a falsy key
raises `AuthenticationException("API密钥缺失")`; otherwise the key is
rejected when the configured allow-list is non-empty (truthy) and does not
contain it, and accepted in every other case. -/
def verify_api_key (api_key : Option String) (api_keys : List String) :
    Except String String :=
  if keyFalsy api_key then .error "API密钥缺失"
  else
    match api_key with
    | none => .error "API密钥缺失"
    | some k =>
        if api_keys ≠ [] ∧ k ∉ api_keys then .error "无效的API密钥"
        else .ok k

/-- Claim C5, counterexample: with an empty allow-list a request without a
bearer key is still rejected as unauthenticated, so authentication is not
disabled "regardless of whether an Authorization bearer key is present". -/
theorem verify_api_key_empty_list_rejects_missing_key :
    verify_api_key none [] = .error "API密钥缺失"
    ∧ exceptOk (verify_api_key none []) = false := by
  exact ⟨rfl, rfl⟩

/-- Claim C5 as amended: a request is accepted iff it presents a truthy
(non-empty) bearer key and either the allow-list is empty (key validation
disabled) or the key is in the allow-list; in particular a missing or empty
key is always rejected, even when the allow-list is empty. -/
theorem verify_api_key_spec (api_key : Option String) (api_keys : List String) :
    exceptOk (verify_api_key api_key api_keys) = true ↔
      keyFalsy api_key = false
      ∧ (api_keys = [] ∨ ∃ k, api_key = some k ∧ k ∈ api_keys) := by
  cases api_key with
  | none => simp [verify_api_key, keyFalsy, exceptOk]
  | some k =>
      by_cases hk : k = ""
      · simp [verify_api_key, keyFalsy, exceptOk, hk]
      · by_cases hl : api_keys = []
        · simp [verify_api_key, keyFalsy, exceptOk, hk, hl]
        · by_cases hm : k ∈ api_keys
          · simp [verify_api_key, keyFalsy, exceptOk, hk, hl, hm]
          · simp [verify_api_key, keyFalsy, exceptOk, hk, hl, hm]

/-! ### Risk derivation (`TradingService.get_risk_info`) -/

/-- The `AssetInfo` model from `app/models/trading_models.py`; exact
monetary values are carried as rationals. -/
structure AssetInfo where
  total_asset : ℚ
  market_value : ℚ
  cash : ℚ
  frozen_cash : ℚ
  available_cash : ℚ
  profit_loss : ℚ
  profit_loss_ratio : ℚ
deriving DecidableEq, Repr

/-- The `RiskInfo` model from `app/models/trading_models.py`. -/
structure RiskInfo where
  position_ratio : ℚ
  cash_ratio : ℚ
  max_drawdown : ℚ
  var_95 : ℚ
  var_99 : ℚ
deriving DecidableEq, Repr

/-- From `TradingService.get_risk_info` (trading_service.py, lines 785-803):
after the session check it takes the asset snapshot returned by
`get_asset_info`, sets `total = asset.total_asset if asset.total_asset > 0
else 1`, and returns ratios over `total` together with three constants.
`connected` is the session-registry membership test; `asset` is the snapshot
`get_asset_info` produced for the session. -/
def get_risk_info (connected : Bool) (asset : AssetInfo) :
    Except String RiskInfo :=
  if !connected then .error "账户未连接"
  else
    let total : ℚ := if asset.total_asset > 0 then asset.total_asset else 1
    .ok { position_ratio := asset.market_value / total
          cash_ratio := asset.cash / total
          max_drawdown := 5 / 100
          var_95 := 2 / 100
          var_99 := 3 / 100 }

/-- An asset snapshot with `0 < total_asset < 1`, where the code's
denominator (`total_asset`) differs from the claim's `max(total_asset, 1)`. -/
def riskCounterAsset : AssetInfo :=
  { total_asset := 1 / 2
    market_value := 1
    cash := 1 / 4
    frozen_cash := 0
    available_cash := 0
    profit_loss := 0
    profit_loss_ratio := 0 }

/-- Claim C9, counterexample: at `total_asset = 1/2`, `market_value = 1`,
the code divides by `total_asset` itself and returns `position_ratio = 2`,
while the claimed formula `market_value / max(total_asset, 1)` gives `1`. -/
theorem get_risk_info_counterexample :
    get_risk_info true riskCounterAsset =
      .ok { position_ratio := 2
            cash_ratio := 1 / 2
            max_drawdown := 5 / 100
            var_95 := 2 / 100
            var_99 := 3 / 100 }
    ∧ riskCounterAsset.market_value / max riskCounterAsset.total_asset 1 = 1
    ∧ (2 : ℚ) ≠ 1 := by
  refine ⟨?_, ?_, by norm_num⟩
  · show Except.ok _ = _
    norm_num [get_risk_info, riskCounterAsset]
  · norm_num [riskCounterAsset]

/-- Claim C9 as amended: the denominator is `total_asset` when it is
positive and `1` otherwise (which coincides with the claimed
`max(total_asset, 1)` exactly when `total_asset ≥ 1` or `total_asset ≤ 0`);
under that proviso the ratios are as claimed, and `max_drawdown`, `var_95`,
`var_99` are always the fixed constants 0.05, 0.02, 0.03. -/
theorem get_risk_info_spec (a : AssetInfo)
    (h : 1 ≤ a.total_asset ∨ a.total_asset ≤ 0) :
    get_risk_info true a =
      .ok { position_ratio := a.market_value / max a.total_asset 1
            cash_ratio := a.cash / max a.total_asset 1
            max_drawdown := 5 / 100
            var_95 := 2 / 100
            var_99 := 3 / 100 } := by
  rcases h with h | h
  · have h0 : (0 : ℚ) < a.total_asset := lt_of_lt_of_le one_pos h
    have hmax : max a.total_asset 1 = a.total_asset := max_eq_left h
    simp [get_risk_info, h0, hmax]
  · have h0 : ¬ ((0 : ℚ) < a.total_asset) := not_lt.mpr h
    have hmax : max a.total_asset 1 = 1 := max_eq_right (h.trans (by norm_num))
    simp [get_risk_info, h0, hmax]

/-- A concrete asset snapshot used to witness `get_risk_info_spec`. -/
def riskWitnessAsset : AssetInfo :=
  { total_asset := 2
    market_value := 1
    cash := 1
    frozen_cash := 0
    available_cash := 1
    profit_loss := 0
    profit_loss_ratio := 0 }

/-- Claim C9, witness: the amended risk formula evaluated at a concrete
snapshot with `total_asset = 2`. -/
theorem get_risk_info_spec_witness :
    get_risk_info true riskWitnessAsset =
      .ok { position_ratio := riskWitnessAsset.market_value / max riskWitnessAsset.total_asset 1
            cash_ratio := riskWitnessAsset.cash / max riskWitnessAsset.total_asset 1
            max_drawdown := 5 / 100
            var_95 := 2 / 100
            var_99 := 3 / 100 } :=
  get_risk_info_spec riskWitnessAsset (Or.inl (by norm_num [riskWitnessAsset]))

/-! ### Trading-callback dispatcher (`app/services/trading_callback_manager.py`) -/

/-- Capacity of every subscriber queue: `TradingCallbackManager.subscribe`
creates `asyncio.Queue(maxsize=1000)`. -/
def MAX_QUEUE : ℕ := 1000

/-- Capacity of the callback history ring: `self._max_history = 100`. -/
def CALLBACK_HISTORY : ℕ := 100

/-- The `TradingCallback` message from `app/models/trading_models.py`; the
kind-specific `data` dict is carried as a key/value dump. -/
structure TradingCallback where
  callback_type : String
  account_id : String
  timestamp : ℕ
  data : List (String × String)
  seq : Option ℤ
deriving DecidableEq, Repr

/-- From `TradingCallbackManager._async_put` (lines 401-411): `put_nowait`
succeeds while the queue is below `MAX_QUEUE`; on `QueueFull` the handler
pops one record with `get_nowait` and retries `put_nowait` once (a second
failure is swallowed by the bare `except`). The queue front is the oldest
record. -/
def async_put {α : Type} (q : List α) (a : α) : List α :=
  if q.length < MAX_QUEUE then q ++ [a]
  else
    let q1 := q.drop 1
    if q1.length < MAX_QUEUE then q1 ++ [a] else q1

/-- Claim C6: the dispatch enqueue is non-blocking (it is a total function
of the current queue), the queue never exceeds its bound `MAX_QUEUE = 1000`,
and on a full queue the oldest record is removed and the new one inserted. -/
theorem async_put_bounded {α : Type} (q : List α) (a : α)
    (hq : q.length ≤ MAX_QUEUE) :
    MAX_QUEUE = 1000
    ∧ (async_put q a).length ≤ MAX_QUEUE
    ∧ (q.length = MAX_QUEUE → async_put q a = q.drop 1 ++ [a])
    ∧ (q.length < MAX_QUEUE → async_put q a = q ++ [a]) := by
  have hq1000 : q.length ≤ 1000 := by simpa [MAX_QUEUE] using hq
  refine ⟨rfl, ?_, ?_, ?_⟩
  · simp only [async_put, MAX_QUEUE]
    split_ifs with h1 h2
    · simp only [List.length_append, List.length_singleton]
      omega
    · simp only [List.length_append, List.length_singleton, List.length_drop]
      omega
    · simp only [List.length_drop]
      omega
  · intro hfull
    simp only [MAX_QUEUE] at hfull
    simp only [async_put, MAX_QUEUE]
    rw [if_neg (by omega), if_pos (by simp only [List.length_drop]; omega)]
  · intro hlt
    simp only [MAX_QUEUE] at hlt
    simp only [async_put, MAX_QUEUE]
    rw [if_pos hlt]

/-- Claim C6, witness: the enqueue bound evaluated on a concrete two-element
queue of naturals. -/
theorem async_put_bounded_witness :
    MAX_QUEUE = 1000
    ∧ (async_put [0, 1] 2).length ≤ MAX_QUEUE
    ∧ (([0, 1] : List ℕ).length = MAX_QUEUE → async_put [0, 1] 2 = [0, 1].drop 1 ++ [2])
    ∧ (([0, 1] : List ℕ).length < MAX_QUEUE → async_put [0, 1] 2 = [0, 1] ++ [2]) :=
  async_put_bounded [0, 1] 2 (by norm_num [MAX_QUEUE])

/-- Python truthiness of an optional string (`if account_id:`): `None` and
the empty string are falsy. -/
def optTruthy : Option String → Bool
  | none => false
  | some a => a != ""

/-- The dispatcher state that `_dispatch_callback` mutates: the history
list, the per-account subscriber queues (`_ws_queues`) and the global
subscriber queues (`_global_queues`). -/
structure DispatchState where
  history : List TradingCallback
  ws_queues : List (String × List (List TradingCallback))
  global_queues : List (List TradingCallback)

/-- From `TradingCallbackManager._dispatch_callback` (lines 349-388): the
record is appended to `_callback_history`, which is truncated to its last
`CALLBACK_HISTORY` entries when it exceeds the bound; the record is then
enqueued (via `_put_to_queue`/`_async_put`) on every queue subscribed to the
record's account (when the account id is truthy) and on every global
queue. -/
def dispatch_callback (st : DispatchState) (c : TradingCallback) : DispatchState :=
  let h1 := st.history ++ [c]
  let h2 := if h1.length > CALLBACK_HISTORY
            then h1.drop (h1.length - CALLBACK_HISTORY) else h1
  { history := h2
    ws_queues := st.ws_queues.map fun p =>
      if optTruthy (some c.account_id) && p.1 == c.account_id
      then (p.1, p.2.map fun q => async_put q c) else p
    global_queues := st.global_queues.map fun q => async_put q c }

/-- The Python slice `l[-limit:]`: for a positive `limit` it keeps the last
`min limit l.length` elements; `l[-0:]` is the whole list. -/
def pySliceLast {α : Type} (l : List α) (limit : ℕ) : List α :=
  if limit = 0 then l else l.drop (l.length - limit)

/-- The account filter inside `get_recent_callbacks`: applied only when the
optional `account_id` argument is truthy. -/
def filter_by_account (h : List TradingCallback) (account_id : Option String) :
    List TradingCallback :=
  if optTruthy account_id
  then h.filter fun c => c.account_id == account_id.getD ""
  else h

/-- From `TradingCallbackManager.get_recent_callbacks` (lines 442-465): the
history is filtered by the account id when one is given, and the slice
`callbacks[-limit:]` of the filtered list is returned. The WebSocket
endpoint (`websocket.py`, line 263) calls this with `limit = 10` on
subscribe. -/
def get_recent_callbacks (h : List TradingCallback) (account_id : Option String)
    (limit : ℕ) : List TradingCallback :=
  pySliceLast (filter_by_account h account_id) limit

/-- Claim C7: the records replayed on subscribe (`limit = 10`) are a suffix
of the account-filtered history — i.e. its most recent matching records —
numbering `min 10 (matching records)` and hence at most 10 and at most
`CALLBACK_HISTORY = 100`; and after any dispatch the history buffer holds at
most `CALLBACK_HISTORY` records. -/
theorem replay_history_bounds (h : List TradingCallback) (acct : Option String)
    (st : DispatchState) (c : TradingCallback) :
    (get_recent_callbacks h acct 10).length ≤ 10
    ∧ 10 ≤ CALLBACK_HISTORY
    ∧ CALLBACK_HISTORY = 100
    ∧ (get_recent_callbacks h acct 10).IsSuffix (filter_by_account h acct)
    ∧ (get_recent_callbacks h acct 10).length
        = min 10 (filter_by_account h acct).length
    ∧ (st.history.length ≤ CALLBACK_HISTORY →
        (dispatch_callback st c).history.length ≤ CALLBACK_HISTORY) := by
  refine ⟨?_, by norm_num [CALLBACK_HISTORY], rfl, ?_, ?_, ?_⟩
  · simp only [get_recent_callbacks, pySliceLast, if_neg (by norm_num : ¬ (10 : ℕ) = 0),
      List.length_drop]
    omega
  · simp only [get_recent_callbacks, pySliceLast, if_neg (by norm_num : ¬ (10 : ℕ) = 0)]
    exact List.drop_suffix _ _
  · simp only [get_recent_callbacks, pySliceLast, if_neg (by norm_num : ¬ (10 : ℕ) = 0),
      List.length_drop]
    omega
  · intro hlen
    simp only [dispatch_callback]
    split
    · simp only [List.length_drop]
      omega
    · simp only [List.length_append, List.length_singleton] at *
      omega

/-- Claim C7, witness: the replay bound applied to a concrete one-record
history and a concrete empty dispatcher state. -/
theorem replay_history_bounds_witness :
    (get_recent_callbacks [⟨"order", "acc1", 0, [], none⟩] (some "acc1") 10).length ≤ 10
    ∧ (dispatch_callback ⟨[], [], []⟩ ⟨"order", "acc1", 0, [], none⟩).history.length
        ≤ CALLBACK_HISTORY :=
  ⟨(replay_history_bounds [⟨"order", "acc1", 0, [], none⟩] (some "acc1")
      ⟨[], [], []⟩ ⟨"order", "acc1", 0, [], none⟩).1,
   (replay_history_bounds [⟨"order", "acc1", 0, [], none⟩] (some "acc1")
      ⟨[], [], []⟩ ⟨"order", "acc1", 0, [], none⟩).2.2.2.2.2 (by norm_num)⟩

/-! ### Trading service data model (`app/services/trading_service.py`) -/

/-- The `XTQuantMode` enum from `app/config.py`: `mock` is the simulated
mode (spec `SIM`), `dev` attaches the vendor core for reads only (spec
`LIVE_RO`), `prod` may permit real trading (spec `LIVE_RW`). -/
inductive XTQuantMode where
  | MOCK
  | DEV
  | PROD
deriving DecidableEq, Repr

/-- The slice of `Settings` that the trading service consults: the mode and
`xtquant.trading.allow_real_trading`. -/
structure XtSettings where
  mode : XTQuantMode
  allow_real_trading : Bool
deriving DecidableEq, Repr

/-- From `TradingService._should_use_real_trading`: real trading only in
`prod` mode with `allow_real_trading` set. -/
def should_use_real_trading (s : XtSettings) : Bool :=
  (s.mode == XTQuantMode.PROD) && s.allow_real_trading

/-- From `TradingService._should_use_real_data`: the vendor core is
attached in `dev` and `prod` modes, provided the `xtquant` package imported
(`XTQUANT_AVAILABLE`, here the `available` argument). -/
def should_use_real_data (available : Bool) (s : XtSettings) : Bool :=
  available && (s.mode == XTQuantMode.DEV || s.mode == XTQuantMode.PROD)

/-- The `OrderSide` str-enum. -/
inductive OrderSide where
  | BUY
  | SELL
deriving DecidableEq, Repr

/-- The string value of an `OrderSide` member. -/
def OrderSide.value : OrderSide → String
  | .BUY => "BUY"
  | .SELL => "SELL"

/-- The `OrderType` str-enum. -/
inductive OrderType where
  | MARKET
  | LIMIT
  | STOP
  | STOP_LIMIT
deriving DecidableEq, Repr

/-- The string value of an `OrderType` member. -/
def OrderType.value : OrderType → String
  | .MARKET => "MARKET"
  | .LIMIT => "LIMIT"
  | .STOP => "STOP"
  | .STOP_LIMIT => "STOP_LIMIT"

/-- The `OrderRequest` model (volume and price validators already enforce
positivity at the DTO boundary). -/
structure OrderRequest where
  stock_code : String
  side : OrderSide
  order_type : OrderType
  volume : ℤ
  price : Option ℚ
  strategy_name : Option String
deriving DecidableEq, Repr

/-- The `OrderResponse` model from `app/models/trading_models.py`. This is
the complete schema of the body returned by POST `/trading/order`. -/
structure OrderResponse where
  order_id : String
  stock_code : String
  side : String
  order_type : String
  volume : ℤ
  price : Option ℚ
  status : String
  submitted_time : ℕ
  filled_volume : ℤ := 0
  filled_amount : ℚ := 0
  average_price : Option ℚ := none
deriving DecidableEq, Repr

/-- The field names of `OrderResponse` paired with whether the field's
declared type is boolean, transcribed from `app/models/trading_models.py`.
No field of the response is a boolean, so the response cannot carry a
boolean simulation/diagnostic flag. -/
def orderResponseSchema : List (String × Bool) :=
  [("order_id", false), ("stock_code", false), ("side", false),
   ("order_type", false), ("volume", false), ("price", false),
   ("status", false), ("submitted_time", false), ("filled_volume", false),
   ("filled_amount", false), ("average_price", false)]

/-- Modelled from the spec: `validate_stock_code` lives in
`app/utils/helpers.py`, which is absent from the provided sources. Spec
section 4.4: "Invalid-symbol validation applies a format check (exchange
suffix present, numeric body) before touching the vendor". -/
def validate_stock_code (code : String) : Bool :=
  let cs := code.toList
  let body := cs.takeWhile fun c => c != '.'
  let rest := cs.drop body.length
  decide (0 < body.length) && body.all Char.isDigit
    && (rest == ['.', 'S', 'H'] || rest == ['.', 'S', 'Z'] || rest == ['.', 'B', 'J'])

/-- Python `dict` membership test on an association list. -/
def dictContains {β : Type} (d : List (String × β)) (k : String) : Bool :=
  d.any fun p => p.1 == k

/-- Python `dict` assignment `d[k] = v`: overwrite in place when the key
exists, otherwise append. Keeps keys duplicate-free. -/
def dictInsert {β : Type} (d : List (String × β)) (k : String) (v : β) :
    List (String × β) :=
  if dictContains d k then d.map fun p => if p.1 == k then (k, v) else p
  else d ++ [(k, v)]

/-- Python `del d[k]` (on a dict the key is unique, so removing every entry
with that key removes exactly it). -/
def dictErase {β : Type} (d : List (String × β)) (k : String) :
    List (String × β) :=
  d.filter fun p => p.1 != k

/-- The `AccountInfo` model. -/
structure AccountInfoRec where
  account_id : String
  account_type : String
  account_name : String
  status : String
  balance : ℚ
  available_balance : ℚ
  frozen_balance : ℚ
  market_value : ℚ
  total_asset : ℚ
deriving DecidableEq, Repr

/-- One value of the `_connected_accounts` dict: the account info, whether
the `account` slot holds a `StockAccount` object (real connect) or `None`
(mock connect), and the connect timestamp. -/
structure SessionEntry where
  account_info : AccountInfoRec
  has_account_obj : Bool
  connected_time : ℕ
deriving DecidableEq, Repr

/-- The mutable state of a `TradingService` instance: the session registry
`_connected_accounts`, the key set of the trader map `_xt_traders`, the
`_orders` dict, and the two counters. -/
structure TradingState where
  connected_accounts : List (String × SessionEntry)
  xt_traders : List String
  orders : List (String × OrderResponse)
  order_counter : ℕ
  async_seq_counter : ℕ
deriving DecidableEq, Repr

/-- Whether the session's registry entry carries a `StockAccount` object
(the `self._connected_accounts[session_id].get("account")` check). -/
def sessionHasAccount (st : TradingState) (session_id : String) : Bool :=
  st.connected_accounts.any fun p => p.1 == session_id && p.2.has_account_obj

/-- The vendor-side results a single trading call can observe; each field is
the return value of the corresponding `XtQuantTrader` method. -/
structure VendorTradingEnv where
  order_stock_result : ℤ
  order_stock_async_result : ℤ
  cancel_order_stock_result : ℤ
  cancel_order_stock_async_result : ℤ
  cancel_order_stock_sysid_async_result : ℤ
deriving DecidableEq, Repr

/-- From `TradingService._get_mock_order_response` (lines 602-619): a
fabricated order keyed `"mock_order_" + counter`, status `SUBMITTED`,
recorded in `_orders`, with the counter bumped. -/
def get_mock_order_response (st : TradingState) (req : OrderRequest)
    (now : ℕ) : OrderResponse × TradingState :=
  let order_id := "mock_order_" ++ toString st.order_counter
  let resp : OrderResponse :=
    { order_id := order_id
      stock_code := req.stock_code
      side := req.side.value
      order_type := req.order_type.value
      volume := req.volume
      price := req.price
      status := OrderStatus.SUBMITTED.value
      submitted_time := now }
  (resp,
    { st with
        order_counter := st.order_counter + 1
        orders := dictInsert st.orders order_id resp })

/-- Outcome of a `submit_order` call: the response or the raised
`TradingServiceException` message, the post-state, and whether the vendor's
`order_stock` was invoked. -/
structure SubmitResult where
  response : Except String OrderResponse
  state : TradingState
  order_stock_invoked : Bool
deriving Repr

/-- From `TradingService._submit_real_order` (lines 558-600): requires the
trader handle and account object, invokes `order_stock`, fails on a falsy or
negative order id, otherwise records and returns a `SUBMITTED` response. -/
def submit_real_order (vendor : VendorTradingEnv) (st : TradingState)
    (session_id : String) (req : OrderRequest) (now : ℕ) : SubmitResult :=
  if ¬ st.xt_traders.contains session_id then
    { response := .error "交易连接不存在", state := st, order_stock_invoked := false }
  else if ¬ sessionHasAccount st session_id then
    { response := .error "账户对象不存在", state := st, order_stock_invoked := false }
  else
    let oid := vendor.order_stock_result
    if oid ≤ 0 then
      { response := .error ("下单失败，错误码: " ++ toString oid)
        state := st
        order_stock_invoked := true }
    else
      let resp : OrderResponse :=
        { order_id := toString oid
          stock_code := req.stock_code
          side := req.side.value
          order_type := req.order_type.value
          volume := req.volume
          price := req.price
          status := OrderStatus.SUBMITTED.value
          submitted_time := now }
      { response := .ok resp
        state := { st with orders := dictInsert st.orders (toString oid) resp }
        order_stock_invoked := true }

/-- From `TradingService.submit_order` (lines 538-556): session check, stock
code validation, then either the mock response (when real trading is not
permitted) or the real vendor order. Raised errors are re-wrapped as
`TradingServiceException`. -/
def submit_order (settings : XtSettings) (vendor : VendorTradingEnv)
    (st : TradingState) (session_id : String) (req : OrderRequest) (now : ℕ) :
    SubmitResult :=
  if ¬ dictContains st.connected_accounts session_id then
    { response := .error "账户未连接", state := st, order_stock_invoked := false }
  else if ¬ validate_stock_code req.stock_code then
    { response := .error ("提交订单失败: 无效的股票代码: " ++ req.stock_code)
      state := st
      order_stock_invoked := false }
  else if ¬ should_use_real_trading settings then
    let (resp, st1) := get_mock_order_response st req now
    { response := .ok resp, state := st1, order_stock_invoked := false }
  else submit_real_order vendor st session_id req now

/-- Claim C1, counterexample: `OrderResponse` — the complete schema of the
body POST `/trading/order` returns — contains no boolean field at all, so
the simulated response cannot "carry a truthy simulation/diagnostic flag";
simulation is signalled only by the `mock_order_` identifier shape (and a
server-side log warning). -/
theorem orderResponse_has_no_simulation_flag :
    orderResponseSchema.all (fun p => !p.2) = true
    ∧ orderResponseSchema.length = 11 := by
  exact ⟨rfl, rfl⟩

/-- Claim C1 as amended: whenever real trading is not permitted
(`mode ≠ prod` or `allow_real_trading` unset), `submit_order` on a connected
session with a valid stock code returns a fabricated order record whose
synthetic identifier is `"mock_order_" ++ counter` and whose status is
`SUBMITTED`, and the vendor's `order_stock` is not invoked; the response
carries no simulation flag field (see the counterexample), the synthetic
identifier shape being the only in-band marker of simulation. -/
theorem submit_order_simulated (settings : XtSettings) (vendor : VendorTradingEnv)
    (st : TradingState) (session_id : String) (req : OrderRequest) (now : ℕ)
    (hmode : should_use_real_trading settings = false)
    (hconn : dictContains st.connected_accounts session_id = true)
    (hcode : validate_stock_code req.stock_code = true) :
    (submit_order settings vendor st session_id req now).order_stock_invoked = false
    ∧ (submit_order settings vendor st session_id req now).response =
        .ok { order_id := "mock_order_" ++ toString st.order_counter
              stock_code := req.stock_code
              side := req.side.value
              order_type := req.order_type.value
              volume := req.volume
              price := req.price
              status := "SUBMITTED"
              submitted_time := now } := by
  simp only [submit_order, hconn, hmode, hcode, get_mock_order_response,
    Bool.not_true, Bool.false_eq_true, not_false_eq_true, if_false, if_true,
    OrderStatus.value]
  constructor
  · rfl
  · rfl

/-- The trading-service state used to witness the simulated `submit_order`:
one connected mock session `"s1"`. -/
def c1WitnessState : TradingState :=
  { connected_accounts :=
      [("s1",
        { account_info :=
            { account_id := "acc1", account_type := "SECURITY"
              account_name := "a", status := "CONNECTED", balance := 0
              available_balance := 0, frozen_balance := 0, market_value := 0
              total_asset := 0 }
          has_account_obj := false
          connected_time := 0 })]
    xt_traders := []
    orders := []
    order_counter := 1000
    async_seq_counter := 0 }

/-- The order request used to witness the simulated `submit_order`. -/
def c1WitnessRequest : OrderRequest :=
  { stock_code := "000001.SZ", side := OrderSide.BUY
    order_type := OrderType.LIMIT, volume := 100, price := some (27 / 2)
    strategy_name := none }

/-- Claim C1, witness: the simulated order path evaluated in `dev`
(read-live) mode on session `"s1"` with code `000001.SZ`. -/
theorem submit_order_simulated_witness :
    (submit_order ⟨XTQuantMode.DEV, false⟩ ⟨1, 1, 0, 0, 0⟩ c1WitnessState
        "s1" c1WitnessRequest 5).order_stock_invoked = false
    ∧ (submit_order ⟨XTQuantMode.DEV, false⟩ ⟨1, 1, 0, 0, 0⟩ c1WitnessState
        "s1" c1WitnessRequest 5).response =
        .ok { order_id := "mock_order_" ++ toString c1WitnessState.order_counter
              stock_code := c1WitnessRequest.stock_code
              side := c1WitnessRequest.side.value
              order_type := c1WitnessRequest.order_type.value
              volume := c1WitnessRequest.volume
              price := c1WitnessRequest.price
              status := "SUBMITTED"
              submitted_time := 5 } :=
  submit_order_simulated ⟨XTQuantMode.DEV, false⟩ ⟨1, 1, 0, 0, 0⟩ c1WitnessState
    "s1" c1WitnessRequest 5 (by decide) (by decide) (by decide)

/-! ### Connect and disconnect (`TradingService`) -/

/-- The session identifier allocated on connect:
`"session_" + account_id + "_" + int(datetime.now().timestamp())`. `now` is
the whole-second timestamp. -/
def mkSessionId (account_id : String) (now : ℕ) : String :=
  "session_" ++ account_id ++ "_" ++ toString now

/-- The `ConnectRequest` model. -/
structure ConnectRequest where
  account_id : String
  password : Option String
  client_id : Option ℤ
deriving DecidableEq, Repr

/-- The `ConnectResponse` model. -/
structure ConnectResponse where
  success : Bool
  message : String
  session_id : Option String
  account_info : Option AccountInfoRec
deriving DecidableEq, Repr

/-- From `TradingService._connect_mock_account` (lines 232-258): builds a
fixed fabricated `AccountInfo`, allocates the session id from the account id
and timestamp, and stores the entry (with `account = None`) in the session
registry. -/
def connect_mock_account (req : ConnectRequest) (now : ℕ) (st : TradingState) :
    ConnectResponse × TradingState :=
  let account_info : AccountInfoRec :=
    { account_id := req.account_id
      account_type := "SECURITY"
      account_name := "账户" ++ req.account_id
      status := "CONNECTED"
      balance := 1000000
      available_balance := 950000
      frozen_balance := 50000
      market_value := 800000
      total_asset := 1800000 }
  let session_id := mkSessionId req.account_id now
  ({ success := true
     message := "账户连接成功（Mock模式）"
     session_id := some session_id
     account_info := some account_info },
   { st with
       connected_accounts := dictInsert st.connected_accounts session_id
         { account_info := account_info, has_account_obj := false
           connected_time := now } })

/-- From `TradingService.disconnect_account` (lines 260-276): the trader
handle, if any, is stopped (failures of `stop()` are swallowed) and removed;
then the session entry is removed and `True` returned, or `False` is
returned when the session id is unknown. No path of the function raises, so
it is modelled total. -/
def disconnect_account (st : TradingState) (session_id : String) :
    Bool × TradingState :=
  let st1 :=
    if st.xt_traders.contains session_id
    then { st with xt_traders := st.xt_traders.filter fun s => s != session_id }
    else st
  if dictContains st1.connected_accounts session_id then
    (true, { st1 with
               connected_accounts := dictErase st1.connected_accounts session_id })
  else (false, st1)

/-- Claim C8, counterexample: when the allocated session identifier is
already present (a second mock connect for the same account within the same
timestamp second), connect overwrites the existing entry and the following
disconnect shrinks the registry below its pre-connect size: starting from a
one-entry registry the size after connect-then-disconnect is 0, not 1. -/
theorem connect_disconnect_collision :
    (((disconnect_account
        (connect_mock_account ⟨"A", none, none⟩ 1
          (connect_mock_account ⟨"A", none, none⟩ 1
            ⟨[], [], [], 1000, 0⟩).2).2
        (mkSessionId "A" 1)).2).connected_accounts.length = 0)
    ∧ ((connect_mock_account ⟨"A", none, none⟩ 1
          ⟨[], [], [], 1000, 0⟩).2).connected_accounts.length = 1 := by
  exact ⟨rfl, rfl⟩

/-- Inserting a key that is not present appends the pair at the end. -/
theorem dictInsert_of_not_contains {β : Type} (d : List (String × β)) (k : String)
    (v : β) (h : dictContains d k = false) : dictInsert d k v = d ++ [(k, v)] := by
  simp [dictInsert, h]

/-- Membership after appending the pair for the key. -/
theorem dictContains_append_single {β : Type} (d : List (String × β)) (k : String)
    (v : β) : dictContains (d ++ [(k, v)]) k = true := by
  simp [dictContains]

/-- Deleting a freshly appended key restores the original dictionary. -/
theorem dictErase_append_single {β : Type} (d : List (String × β)) (k : String)
    (v : β) (h : dictContains d k = false) : dictErase (d ++ [(k, v)]) k = d := by
  simp only [dictContains, List.any_eq_false] at h
  simp only [dictErase, List.filter_append]
  rw [List.filter_eq_self.mpr, List.filter_eq_nil_iff.mpr]
  · simp
  · intro p hp
    simp only [List.mem_singleton] at hp
    subst hp
    simp
  · intro p hp
    have hpk := h p hp
    simp only [bne]
    simp only [Bool.not_eq_true] at hpk
    simp [hpk]

/-- The returned flag of `disconnect_account` is the session-registry
membership test; the trader-map branch does not affect the registry. -/
theorem disconnect_account_fst (st : TradingState) (session_id : String) :
    (disconnect_account st session_id).1
      = dictContains st.connected_accounts session_id := by
  simp only [disconnect_account, apply_ite TradingState.connected_accounts,
    ite_self]
  by_cases h : dictContains st.connected_accounts session_id = true
  · simp [h]
  · simp [h]

/-- The session registry after `disconnect_account`: erased when present,
untouched otherwise. -/
theorem disconnect_account_accounts (st : TradingState) (session_id : String) :
    ((disconnect_account st session_id).2).connected_accounts
      = if dictContains st.connected_accounts session_id
        then dictErase st.connected_accounts session_id
        else st.connected_accounts := by
  simp only [disconnect_account, apply_ite TradingState.connected_accounts,
    ite_self]
  by_cases h : dictContains st.connected_accounts session_id = true
  · simp [h]
  · simp [h, apply_ite TradingState.connected_accounts, ite_self]

/-- The session registry after `connect_mock_account` is the registry with
the new session id assigned. -/
theorem connect_mock_account_accounts (req : ConnectRequest) (now : ℕ)
    (st : TradingState) :
    ∃ e, ((connect_mock_account req now st).2).connected_accounts
      = dictInsert st.connected_accounts (mkSessionId req.account_id now) e := by
  exact ⟨_, rfl⟩

/-- Claim C8 as amended: provided the session identifier allocated by
connect is fresh (no other session with the same account id exists from the
same timestamp second), a mock connect followed by a disconnect of the
returned identifier restores the session registry exactly to its pre-connect
contents (hence size), and a second disconnect of the same identifier
returns `false`; `disconnect_account` is a total function, so neither
disconnect raises. -/
theorem connect_disconnect_roundtrip (req : ConnectRequest) (now : ℕ)
    (st : TradingState)
    (hfresh : dictContains st.connected_accounts (mkSessionId req.account_id now)
      = false) :
    (connect_mock_account req now st).1.success = true
    ∧ (connect_mock_account req now st).1.session_id
        = some (mkSessionId req.account_id now)
    ∧ (disconnect_account (connect_mock_account req now st).2
        (mkSessionId req.account_id now)).1 = true
    ∧ ((disconnect_account (connect_mock_account req now st).2
        (mkSessionId req.account_id now)).2).connected_accounts
      = st.connected_accounts
    ∧ (disconnect_account
        (disconnect_account (connect_mock_account req now st).2
          (mkSessionId req.account_id now)).2
        (mkSessionId req.account_id now)).1 = false := by
  set sid := mkSessionId req.account_id now with hsid
  obtain ⟨e, hacc⟩ := connect_mock_account_accounts req now st
  rw [dictInsert_of_not_contains _ _ _ hfresh] at hacc
  have h1 : (disconnect_account (connect_mock_account req now st).2 sid).1 = true := by
    rw [disconnect_account_fst, hacc, dictContains_append_single]
  have h2 : ((disconnect_account (connect_mock_account req now st).2 sid).2).connected_accounts
      = st.connected_accounts := by
    rw [disconnect_account_accounts, hacc, dictContains_append_single]
    simp [dictErase_append_single _ sid e hfresh]
  refine ⟨rfl, rfl, h1, h2, ?_⟩
  rw [disconnect_account_fst, h2]
  exact hfresh

/-- Claim C8, witness: the connect/disconnect round trip for account `"A"`
at timestamp 1 starting from the empty registry. -/
theorem connect_disconnect_roundtrip_witness :
    (connect_mock_account ⟨"A", none, none⟩ 1 ⟨[], [], [], 1000, 0⟩).1.success = true
    ∧ (connect_mock_account ⟨"A", none, none⟩ 1 ⟨[], [], [], 1000, 0⟩).1.session_id
        = some (mkSessionId "A" 1)
    ∧ (disconnect_account
        (connect_mock_account ⟨"A", none, none⟩ 1 ⟨[], [], [], 1000, 0⟩).2
        (mkSessionId "A" 1)).1 = true
    ∧ ((disconnect_account
        (connect_mock_account ⟨"A", none, none⟩ 1 ⟨[], [], [], 1000, 0⟩).2
        (mkSessionId "A" 1)).2).connected_accounts
      = (⟨[], [], [], 1000, 0⟩ : TradingState).connected_accounts
    ∧ (disconnect_account
        (disconnect_account
          (connect_mock_account ⟨"A", none, none⟩ 1 ⟨[], [], [], 1000, 0⟩).2
          (mkSessionId "A" 1)).2
        (mkSessionId "A" 1)).1 = false :=
  connect_disconnect_roundtrip ⟨"A", none, none⟩ 1 ⟨[], [], [], 1000, 0⟩ rfl

/-- The fields of the vendor asset object that `_connect_real_account`
reads after `query_stock_asset`. -/
structure AssetSnapshot where
  total_asset : ℚ
  market_value : ℚ
  cash : ℚ
deriving DecidableEq, Repr

/-- The external behaviour `_connect_real_account` can observe on one call:
the configured QMT userdata path, whether one of the vendor steps
(constructor, callback registration, `start`) raises, and the results of the
vendor's `connect`, `subscribe` and `query_stock_asset`. -/
structure VendorConnectEnv where
  qmt_userdata_path : Option String
  start_raises : Option String
  connect_result : ℤ
  subscribe_result : ℤ
  query_asset : Option AssetSnapshot
deriving DecidableEq, Repr

/-- Python-dict key insertion for the `_xt_traders` key set
(`self._xt_traders[session_id] = xt_trader`). -/
def listInsertKey (l : List String) (k : String) : List String :=
  if l.contains k then l else l ++ [k]

/-- From `TradingService._connect_real_account` (lines 155-230): path check,
vendor client construction, callback registration, `start`, `connect`
(non-zero result raises), `subscribe` (non-zero result raises), asset query
(a `None` asset falls back to zeros), then — only after every step has
succeeded — insertion into `_connected_accounts` and `_xt_traders`. Raised
exceptions are modelled as `Except.error`. -/
def connect_real_account (env : VendorConnectEnv) (req : ConnectRequest)
    (now : ℕ) (st : TradingState) :
    Except String (ConnectResponse × TradingState) :=
  if optTruthy env.qmt_userdata_path = false then
    .error "未配置 QMT userdata 路径"
  else
    let session_id := mkSessionId req.account_id now
    match env.start_raises with
    | some e => .error e
    | none =>
      if env.connect_result ≠ 0 then
        .error ("连接服务器失败，错误码: " ++ toString env.connect_result)
      else if env.subscribe_result ≠ 0 then
        .error ("订阅账户失败，错误码: " ++ toString env.subscribe_result)
      else
        let totals : ℚ × ℚ × ℚ :=
          match env.query_asset with
          | some a => (a.total_asset, a.market_value, a.cash)
          | none => (0, 0, 0)
        let account_info : AccountInfoRec :=
          { account_id := req.account_id
            account_type := "SECURITY"
            account_name := "账户" ++ req.account_id
            status := "CONNECTED"
            balance := totals.2.2
            available_balance := totals.2.2
            frozen_balance := 0
            market_value := totals.2.1
            total_asset := totals.1 }
        .ok
          ({ success := true
             message := "账户连接成功"
             session_id := some session_id
             account_info := some account_info },
           { st with
               connected_accounts := dictInsert st.connected_accounts session_id
                 { account_info := account_info, has_account_obj := true
                   connected_time := now }
               xt_traders := listInsertKey st.xt_traders session_id })

/-- From `TradingService.connect_account` (lines 138-153): dispatches to the
real or mock connect and catches every exception, turning it into a
`ConnectResponse` with `success = False` (the pre-call state is left as it
was, since both connect paths mutate the registries only on success). -/
def connect_account (available : Bool) (settings : XtSettings)
    (env : VendorConnectEnv) (req : ConnectRequest) (now : ℕ)
    (st : TradingState) : ConnectResponse × TradingState :=
  if should_use_real_data available settings && available then
    match connect_real_account env req now st with
    | .ok r => r
    | .error e =>
        ({ success := false
           message := "账户连接失败: " ++ e
           session_id := none
           account_info := none }, st)
  else connect_mock_account req now st

/-- Claim C10: `connect_account` is total (it returns a `ConnectResponse`
for every input instead of propagating an error); on the real path a failed
connect — missing QMT path, a raising vendor step, non-zero vendor `connect`,
or non-zero account `subscribe` — yields `success = false` and leaves the
whole trading state (in particular the session registry and trader map)
unchanged, and conversely the real path only reports `success = false` in
those cases; the mock path always succeeds. -/
theorem connect_account_total_and_atomic (available : Bool)
    (settings : XtSettings) (env : VendorConnectEnv) (req : ConnectRequest)
    (now : ℕ) (st : TradingState) :
    ((connect_account available settings env req now st).1.success = false →
      (connect_account available settings env req now st).2 = st)
    ∧ ((should_use_real_data available settings && available) = true →
        ((connect_account available settings env req now st).1.success = false ↔
          optTruthy env.qmt_userdata_path = false
          ∨ env.start_raises ≠ none
          ∨ env.connect_result ≠ 0
          ∨ env.subscribe_result ≠ 0))
    ∧ ((should_use_real_data available settings && available) = false →
        (connect_account available settings env req now st).1.success = true) := by
  by_cases hreal : (should_use_real_data available settings && available) = true
  · have hfail :
        ∀ e, connect_real_account env req now st = .error e →
          connect_account available settings env req now st
            = ({ success := false, message := "账户连接失败: " ++ e
                 session_id := none, account_info := none }, st) := by
      intro e he
      simp [connect_account, hreal, he]
    by_cases hp : optTruthy env.qmt_userdata_path = false
    · have he : connect_real_account env req now st = .error "未配置 QMT userdata 路径" := by
        simp [connect_real_account, hp]
      rw [hfail _ he]
      refine ⟨fun _ => rfl, fun _ => ?_, fun hc => absurd hreal (by simp [hc])⟩
      simp [hp]
    · cases hs : env.start_raises with
      | some e0 =>
          have he : connect_real_account env req now st = .error e0 := by
            simp [connect_real_account, hp, hs]
          rw [hfail _ he]
          refine ⟨fun _ => rfl, fun _ => ?_, fun hc => absurd hreal (by simp [hc])⟩
          simp [hp, hs]
      | none =>
          by_cases hc0 : env.connect_result = 0
          · by_cases hsub : env.subscribe_result = 0
            · have hsucc :
                  (connect_account available settings env req now st).1.success
                    = true := by
                simp [connect_account, hreal, connect_real_account, hp, hs, hc0, hsub]
              refine ⟨fun hfalse => ?_, fun _ => ?_, fun hcon => absurd hreal (by simp [hcon])⟩
              · rw [hsucc] at hfalse
                exact absurd hfalse (by simp)
              · rw [hsucc]
                simp [hp, hs, hc0, hsub]
            · have he : connect_real_account env req now st
                  = .error ("订阅账户失败，错误码: " ++ toString env.subscribe_result) := by
                simp [connect_real_account, hp, hs, hc0, hsub]
              rw [hfail _ he]
              refine ⟨fun _ => rfl, fun _ => ?_, fun hcon => absurd hreal (by simp [hcon])⟩
              simp [hsub]
          · have he : connect_real_account env req now st
                = .error ("连接服务器失败，错误码: " ++ toString env.connect_result) := by
              simp [connect_real_account, hp, hs, hc0]
            rw [hfail _ he]
            refine ⟨fun _ => rfl, fun _ => ?_, fun hcon => absurd hreal (by simp [hcon])⟩
            simp [hc0]
  · have hmock : connect_account available settings env req now st
        = connect_mock_account req now st := by
      simp only [Bool.not_eq_true] at hreal
      simp [connect_account, hreal]
    rw [hmock]
    refine ⟨fun hfalse => ?_, fun hcon => absurd hcon hreal, fun _ => rfl⟩
    exact absurd hfalse (by simp [connect_mock_account])

/-- Claim C10, witness: a real-path connect in `dev` mode whose vendor
`connect` returns -1 fails with `success = false` and leaves the state
unchanged. -/
theorem connect_account_total_and_atomic_witness :
    ((connect_account true ⟨XTQuantMode.DEV, false⟩
        ⟨some "C:/qmt", none, -1, 0, none⟩ ⟨"A", none, none⟩ 1
        ⟨[], [], [], 1000, 0⟩).1.success = false →
      (connect_account true ⟨XTQuantMode.DEV, false⟩
        ⟨some "C:/qmt", none, -1, 0, none⟩ ⟨"A", none, none⟩ 1
        ⟨[], [], [], 1000, 0⟩).2 = ⟨[], [], [], 1000, 0⟩)
    ∧ (connect_account true ⟨XTQuantMode.DEV, false⟩
        ⟨some "C:/qmt", none, -1, 0, none⟩ ⟨"A", none, none⟩ 1
        ⟨[], [], [], 1000, 0⟩).1.success = false
    ∧ (connect_account true ⟨XTQuantMode.DEV, false⟩
        ⟨some "C:/qmt", none, -1, 0, none⟩ ⟨"A", none, none⟩ 1
        ⟨[], [], [], 1000, 0⟩).2 = ⟨[], [], [], 1000, 0⟩ := by
  have h := connect_account_total_and_atomic true ⟨XTQuantMode.DEV, false⟩
    ⟨some "C:/qmt", none, -1, 0, none⟩ ⟨"A", none, none⟩ 1 ⟨[], [], [], 1000, 0⟩
  have hfalse : (connect_account true ⟨XTQuantMode.DEV, false⟩
      ⟨some "C:/qmt", none, -1, 0, none⟩ ⟨"A", none, none⟩ 1
      ⟨[], [], [], 1000, 0⟩).1.success = false :=
    (h.2.1 (by decide)).mpr (by right; right; left; decide)
  exact ⟨h.1, hfalse, h.1 hfalse⟩

/-! ### Async submit/cancel and the process-wide sequence counter -/

/-- From `TradingService._get_next_seq` (lines 106-110): the process-wide
counter is incremented (under `._seq_lock`; calls are serialised, which the
sequential model reflects) and the new value returned; the stored counter
equals the returned value. -/
def get_next_seq (counter : ℕ) : ℕ :=
  counter + 1

/-- The `AsyncOrderRequest` model. -/
structure AsyncOrderRequest where
  stock_code : String
  side : OrderSide
  order_type : OrderType
  volume : ℤ
  price : Option ℚ
  strategy_name : Option String
deriving DecidableEq, Repr

/-- The `AsyncOrderResponse` model. -/
structure AsyncOrderResponse where
  success : Bool
  message : String
  seq : Option ℕ
  stock_code : Option String
  side : Option String
  volume : Option ℤ
  price : Option ℚ
deriving DecidableEq, Repr

/-- The `AsyncCancelRequest` model. -/
structure AsyncCancelRequest where
  order_id : Option String
  order_sysid : Option String
deriving DecidableEq, Repr

/-- The `AsyncCancelResponse` model. -/
structure AsyncCancelResponse where
  success : Bool
  message : String
  seq : Option ℕ
  order_id : Option String
deriving DecidableEq, Repr

/-- From `TradingService._submit_real_order_async` (lines 682-727): after
the trader and account checks a sequence number is drawn, then
`order_stock_async` is invoked; a negative vendor result raises (with the
sequence already consumed), otherwise the response carries the sequence. -/
def submit_real_order_async (vendor : VendorTradingEnv) (st : TradingState)
    (session_id : String) (req : AsyncOrderRequest) :
    Except String AsyncOrderResponse × TradingState :=
  if ¬ st.xt_traders.contains session_id then (.error "交易连接不存在", st)
  else if ¬ sessionHasAccount st session_id then (.error "账户对象不存在", st)
  else
    let seq := get_next_seq st.async_seq_counter
    let st1 := { st with async_seq_counter := seq }
    if vendor.order_stock_async_result < 0 then
      (.error ("异步下单失败，错误码: " ++ toString vendor.order_stock_async_result), st1)
    else
      (.ok { success := true
             message := "异步下单已提交"
             seq := some seq
             stock_code := some req.stock_code
             side := some req.side.value
             volume := some req.volume
             price := req.price }, st1)

/-- From `TradingService.submit_order_async` (lines 660-680): session check,
stock-code validation, then either a fabricated acknowledgement carrying a
fresh sequence (when real trading is not permitted) or the real async
order. -/
def submit_order_async (settings : XtSettings) (vendor : VendorTradingEnv)
    (st : TradingState) (session_id : String) (req : AsyncOrderRequest) :
    Except String AsyncOrderResponse × TradingState :=
  if ¬ dictContains st.connected_accounts session_id then (.error "账户未连接", st)
  else if ¬ validate_stock_code req.stock_code then
    (.error ("无效的股票代码: " ++ req.stock_code), st)
  else if ¬ should_use_real_trading settings then
    let seq := get_next_seq st.async_seq_counter
    (.ok { success := true
           message := "异步下单已提交（Mock模式）"
           seq := some seq
           stock_code := some req.stock_code
           side := some req.side.value
           volume := some req.volume
           price := req.price },
     { st with async_seq_counter := seq })
  else submit_real_order_async vendor st session_id req

/-- From `TradingService._cancel_real_order_async` (lines 748-781): after
the trader and account checks a sequence number is drawn, then the
`order_sysid` or `order_id` variant of the async cancel is invoked; a
negative vendor result raises, otherwise the response carries the
sequence. -/
def cancel_real_order_async (vendor : VendorTradingEnv) (st : TradingState)
    (session_id : String) (req : AsyncCancelRequest) :
    Except String AsyncCancelResponse × TradingState :=
  if ¬ st.xt_traders.contains session_id then (.error "交易连接不存在", st)
  else if ¬ sessionHasAccount st session_id then (.error "账户对象不存在", st)
  else
    let seq := get_next_seq st.async_seq_counter
    let st1 := { st with async_seq_counter := seq }
    let result := if optTruthy req.order_sysid
                  then vendor.cancel_order_stock_sysid_async_result
                  else vendor.cancel_order_stock_async_result
    if result < 0 then
      (.error ("异步撤单失败，错误码: " ++ toString result), st1)
    else
      (.ok { success := true
             message := "异步撤单已提交"
             seq := some seq
             order_id := req.order_id }, st1)

/-- From `TradingService.cancel_order_async` (lines 729-746): session check,
the `order_id`/`order_sysid` presence check, then either a fabricated
acknowledgement carrying a fresh sequence (when real trading is not
permitted) or the real async cancel. -/
def cancel_order_async (settings : XtSettings) (vendor : VendorTradingEnv)
    (st : TradingState) (session_id : String) (req : AsyncCancelRequest) :
    Except String AsyncCancelResponse × TradingState :=
  if ¬ dictContains st.connected_accounts session_id then (.error "账户未连接", st)
  else if optTruthy req.order_id = false ∧ optTruthy req.order_sysid = false then
    (.error "order_id 和 order_sysid 至少需要提供一个", st)
  else if ¬ should_use_real_trading settings then
    let seq := get_next_seq st.async_seq_counter
    (.ok { success := true
           message := "异步撤单已提交（Mock模式）"
           seq := some seq
           order_id := req.order_id },
     { st with async_seq_counter := seq })
  else cancel_real_order_async vendor st session_id req

/-- One call of the async-mutation API within a process lifetime, with the
vendor results it observes. -/
inductive AsyncOp where
  | submitOp (session_id : String) (req : AsyncOrderRequest) (vendor : VendorTradingEnv)
  | cancelOp (session_id : String) (req : AsyncCancelRequest) (vendor : VendorTradingEnv)

/-- The sequence number an async call returned to its caller, if any. -/
def asyncOpSeq (settings : XtSettings) (op : AsyncOp) (st : TradingState) :
    Option ℕ × TradingState :=
  match op with
  | .submitOp sid req vendor =>
      match submit_order_async settings vendor st sid req with
      | (.ok resp, st1) => (resp.seq, st1)
      | (.error _, st1) => (none, st1)
  | .cancelOp sid req vendor =>
      match cancel_order_async settings vendor st sid req with
      | (.ok resp, st1) => (resp.seq, st1)
      | (.error _, st1) => (none, st1)

/-- Running a sequence of async calls, collecting each call's returned
sequence number. -/
def run_async_ops (settings : XtSettings) :
    List AsyncOp → TradingState → List (Option ℕ) × TradingState
  | [], st => ([], st)
  | op :: ops, st =>
      ((asyncOpSeq settings op st).1
          :: (run_async_ops settings ops (asyncOpSeq settings op st).2).1,
       (run_async_ops settings ops (asyncOpSeq settings op st).2).2)

/-- The sequence numbers actually emitted by a run of async calls, in call
order. -/
def emitted_seqs (settings : XtSettings) (ops : List AsyncOp)
    (st : TradingState) : List ℕ :=
  (run_async_ops settings ops st).1.filterMap id

/-- Sequence-counter behaviour of one `submit_order_async` call: the counter
never decreases, and a successful call returns exactly the incremented
counter value. -/
theorem submit_order_async_seq (settings : XtSettings) (vendor : VendorTradingEnv)
    (st : TradingState) (sid : String) (req : AsyncOrderRequest) :
    st.async_seq_counter
      ≤ (submit_order_async settings vendor st sid req).2.async_seq_counter
    ∧ ∀ resp, (submit_order_async settings vendor st sid req).1 = .ok resp →
        resp.seq = some (st.async_seq_counter + 1)
        ∧ (submit_order_async settings vendor st sid req).2.async_seq_counter
            = st.async_seq_counter + 1 := by
  unfold submit_order_async submit_real_order_async get_next_seq
  split_ifs <;> constructor
  all_goals
    first
    | (simp; done)
    | ((split <;> simp); done)
    | (intro resp hresp
       first
       | simp_all
       | (injection hresp with h
          subst h
          exact ⟨rfl, rfl⟩)
       | (split at hresp <;>
           first
           | simp_all
           | (injection hresp with h
              subst h
              refine ⟨rfl, ?_⟩
              simp_all)))

/-- Sequence-counter behaviour of one `cancel_order_async` call: the counter
never decreases, and a successful call returns exactly the incremented
counter value. -/
theorem cancel_order_async_seq (settings : XtSettings) (vendor : VendorTradingEnv)
    (st : TradingState) (sid : String) (req : AsyncCancelRequest) :
    st.async_seq_counter
      ≤ (cancel_order_async settings vendor st sid req).2.async_seq_counter
    ∧ ∀ resp, (cancel_order_async settings vendor st sid req).1 = .ok resp →
        resp.seq = some (st.async_seq_counter + 1)
        ∧ (cancel_order_async settings vendor st sid req).2.async_seq_counter
            = st.async_seq_counter + 1 := by
  unfold cancel_order_async cancel_real_order_async get_next_seq
  split_ifs <;> constructor
  all_goals try (simp; done)
  all_goals try (simp [apply_ite Prod.snd]; done)
  all_goals intro resp hresp
  all_goals try (simp_all; done)
  all_goals try (injection hresp with h; subst h; exact ⟨rfl, rfl⟩)
  all_goals
    simp only [apply_ite Prod.fst] at hresp
  all_goals
    split at hresp
  all_goals try (simp_all; done)
  all_goals injection hresp with h
  all_goals subst h
  all_goals refine ⟨rfl, ?_⟩
  all_goals simp_all [apply_ite Prod.snd]

/-- Sequence-counter behaviour of one async call, uniformly over both
operations. -/
theorem asyncOpSeq_spec (settings : XtSettings) (op : AsyncOp) (st : TradingState) :
    st.async_seq_counter ≤ (asyncOpSeq settings op st).2.async_seq_counter
    ∧ ∀ s, (asyncOpSeq settings op st).1 = some s →
        s = st.async_seq_counter + 1
        ∧ (asyncOpSeq settings op st).2.async_seq_counter
            = st.async_seq_counter + 1 := by
  cases op with
  | submitOp sid req vendor =>
      have h := submit_order_async_seq settings vendor st sid req
      simp only [asyncOpSeq]
      rcases hres : submit_order_async settings vendor st sid req with ⟨res, st1⟩
      rw [hres] at h
      cases res with
      | ok resp =>
          obtain ⟨hseq, hcnt⟩ := h.2 resp rfl
          refine ⟨h.1, ?_⟩
          intro s hs
          simp only at hs
          rw [hseq] at hs
          exact ⟨by injection hs with h0; omega, hcnt⟩
      | error e =>
          refine ⟨h.1, ?_⟩
          intro s hs
          simp at hs
  | cancelOp sid req vendor =>
      have h := cancel_order_async_seq settings vendor st sid req
      simp only [asyncOpSeq]
      rcases hres : cancel_order_async settings vendor st sid req with ⟨res, st1⟩
      rw [hres] at h
      cases res with
      | ok resp =>
          obtain ⟨hseq, hcnt⟩ := h.2 resp rfl
          refine ⟨h.1, ?_⟩
          intro s hs
          simp only at hs
          rw [hseq] at hs
          exact ⟨by injection hs with h0; omega, hcnt⟩
      | error e =>
          refine ⟨h.1, ?_⟩
          intro s hs
          simp at hs

/-- The sequence counter never decreases over a run of async calls. -/
theorem run_async_ops_counter_mono (settings : XtSettings) (ops : List AsyncOp)
    (st : TradingState) :
    st.async_seq_counter ≤ (run_async_ops settings ops st).2.async_seq_counter := by
  induction ops generalizing st with
  | nil => simp [run_async_ops]
  | cons op ops ih =>
      simp only [run_async_ops]
      exact le_trans (asyncOpSeq_spec settings op st).1
        (ih (asyncOpSeq settings op st).2)

/-- Unfolding of `emitted_seqs` over one call. -/
theorem emitted_seqs_cons (settings : XtSettings) (op : AsyncOp)
    (ops : List AsyncOp) (st : TradingState) :
    emitted_seqs settings (op :: ops) st
      = ((asyncOpSeq settings op st).1.toList
          ++ emitted_seqs settings ops (asyncOpSeq settings op st).2) := by
  simp only [emitted_seqs, run_async_ops, List.filterMap_cons]
  cases (asyncOpSeq settings op st).1 <;> simp

/-- Every emitted sequence number lies strictly above the starting counter
and at most at the final counter. -/
theorem emitted_seqs_bounds (settings : XtSettings) (ops : List AsyncOp)
    (st : TradingState) :
    ∀ s ∈ emitted_seqs settings ops st,
      st.async_seq_counter < s
      ∧ s ≤ (run_async_ops settings ops st).2.async_seq_counter := by
  induction ops generalizing st with
  | nil =>
      intro s hs
      simp [emitted_seqs, run_async_ops] at hs
  | cons op ops ih =>
      intro s hs
      rw [emitted_seqs_cons] at hs
      have hmono1 := (asyncOpSeq_spec settings op st).1
      have hmono2 := run_async_ops_counter_mono settings ops
        (asyncOpSeq settings op st).2
      have hfinal : (run_async_ops settings (op :: ops) st).2
          = (run_async_ops settings ops (asyncOpSeq settings op st).2).2 := rfl
      rcases List.mem_append.mp hs with hhead | htail
      · cases hr : (asyncOpSeq settings op st).1 with
        | none => rw [hr] at hhead; simp at hhead
        | some a =>
            rw [hr] at hhead
            simp only [Option.toList_some, List.mem_singleton] at hhead
            subst hhead
            obtain ⟨ha, hc⟩ := (asyncOpSeq_spec settings op st).2 s hr
            rw [hfinal]
            constructor
            · omega
            · omega
      · obtain ⟨h1, h2⟩ := ih (asyncOpSeq settings op st).2 s htail
        rw [hfinal]
        exact ⟨lt_of_le_of_lt hmono1 h1, h2⟩

/-- Claim C2: over any process lifetime (any sequence of
`submit_order_async` / `cancel_order_async` calls from any starting state),
the sequence numbers returned to callers are strictly increasing in call
order, and hence pairwise distinct. The `_seq_lock` serialises the counter
increments; the model reflects the resulting sequential interleaving. -/
theorem async_seqs_strictly_increasing (settings : XtSettings)
    (ops : List AsyncOp) (st : TradingState) :
    List.Pairwise (· < ·) (emitted_seqs settings ops st)
    ∧ (emitted_seqs settings ops st).Nodup := by
  have hpw : List.Pairwise (· < ·) (emitted_seqs settings ops st) := by
    induction ops generalizing st with
    | nil => simp [emitted_seqs, run_async_ops]
    | cons op ops ih =>
        rw [emitted_seqs_cons]
        cases hr : (asyncOpSeq settings op st).1 with
        | none => simpa using ih (asyncOpSeq settings op st).2
        | some a =>
            simp only [Option.toList_some, List.singleton_append,
              List.pairwise_cons]
            refine ⟨?_, ih (asyncOpSeq settings op st).2⟩
            intro y hy
            obtain ⟨ha, hc⟩ := (asyncOpSeq_spec settings op st).2 a hr
            obtain ⟨hy1, _⟩ := emitted_seqs_bounds settings ops
              (asyncOpSeq settings op st).2 y hy
            omega
  exact ⟨hpw, hpw.imp fun h => Nat.ne_of_lt h⟩

/-! ### Blocking-call executor (`app/utils/async_utils.py`, `run_sync`) -/

/-- An HTTP error as raised by `fastapi.HTTPException`. -/
structure HttpError where
  status_code : ℕ
  detail : String
deriving DecidableEq, Repr

/-- What the caller of `run_sync` observes: the wrapped function's value, an
HTTP 504 timeout error, or the exception the wrapped function raised
(re-raised verbatim by the final `except` clause). -/
inductive CallOutcome (α : Type) where
  | value (v : α)
  | httpTimeout (e : HttpError)
  | raised (e : String)

/-- A vendor-call job as the executor sees it: how many seconds the wrapped
function runs on its worker thread and its eventual outcome (a value or a
raised exception message). -/
structure SyncJob (α : Type) where
  duration : ℚ
  outcome : Except String α

/-- The fate of the `ThreadPoolExecutor` worker that runs the job. -/
structure WorkerFate (α : Type) where
  killed : Bool
  eventual_outcome : Option (Except String α)

/-- Denotational embedding of `run_sync` (async_utils.py, lines 39-96) over
explicit durations. `asyncio.wait_for` delivers the worker's result iff the
job finishes within `timeout` seconds; otherwise it raises
`asyncio.TimeoutError`, which `run_sync` converts to
`HTTPException(status.HTTP_504_GATEWAY_TIMEOUT)`. Cancelling the
`wait_for` future does not interrupt the worker thread
(`loop.run_in_executor` jobs are not cancellable once running), so the
worker always runs to completion; on timeout its eventual outcome is never
delivered to the caller. -/
def run_sync {α : Type} (timeout : ℚ) (job : SyncJob α) :
    CallOutcome α × WorkerFate α :=
  let fate : WorkerFate α := { killed := false, eventual_outcome := some job.outcome }
  if job.duration ≤ timeout then
    (match job.outcome with
     | .ok v => .value v
     | .error e => .raised e, fate)
  else
    (.httpTimeout
      { status_code := 504
        detail := "请求超时，操作未能在 " ++ toString timeout ++ " 秒内完成" },
     fate)

/-- Claim C3: when the wrapped function does not complete within the
per-operation deadline, the caller observes an HTTP 504 timeout error, the
worker is not killed and still produces its eventual outcome, and that
outcome is never delivered to the caller. -/
theorem run_sync_timeout {α : Type} (timeout : ℚ) (job : SyncJob α)
    (h : timeout < job.duration) :
    (run_sync timeout job).1 =
      .httpTimeout
        { status_code := 504
          detail := "请求超时，操作未能在 " ++ toString timeout ++ " 秒内完成" }
    ∧ (run_sync timeout job).2.killed = false
    ∧ (run_sync timeout job).2.eventual_outcome = some job.outcome
    ∧ ∀ v : α, (run_sync timeout job).1 ≠ .value v := by
  have hnot : ¬ job.duration ≤ timeout := not_le.mpr h
  refine ⟨?_, ?_, ?_, ?_⟩
  · simp [run_sync, hnot]
  · simp [run_sync, hnot]
  · simp [run_sync, hnot]
  · intro v
    simp [run_sync, hnot]

/-- Claim C3, witness: a 60-second job against a 30-second deadline yields
the 504 outcome, an unkilled worker, and no delivered value. -/
theorem run_sync_timeout_witness :
    (run_sync 30 (⟨60, .ok 7⟩ : SyncJob ℕ)).1 =
      .httpTimeout
        { status_code := 504
          detail := "请求超时，操作未能在 " ++ toString (30 : ℚ) ++ " 秒内完成" }
    ∧ (run_sync 30 (⟨60, .ok 7⟩ : SyncJob ℕ)).2.killed = false
    ∧ (run_sync 30 (⟨60, .ok 7⟩ : SyncJob ℕ)).2.eventual_outcome = some (.ok 7)
    ∧ ∀ v : ℕ, (run_sync 30 (⟨60, .ok 7⟩ : SyncJob ℕ)).1 ≠ .value v :=
  run_sync_timeout 30 ⟨60, .ok 7⟩ (by norm_num)

end QmtProxy
